import Mathlib

/-!
Shallow embedding of `src/apps/cli.ts` (the container-kit-mcp CLI): option
validation, mode dispatch, error classification, and the shutdown handler,
together with theorems checking the specification claims against it.

Conventions:
- JavaScript truthiness tests on possibly-undefined values are modelled on
  `Option` fields (`none`, empty string and zero are falsy).
- `statSync` is modelled by a function `Fs : String → Option FileStat`;
  `none` models a throwing `statSync` (the path does not exist).
- Collaborator operations that may throw are modelled as `Except String`
  values carrying the thrown error message.
-/

namespace CliSpec

/-- Result of a filesystem `statSync` call; the only attribute the CLI ever
inspects is `isDirectory()`. -/
structure FileStat where
  isDirectory : Bool
deriving DecidableEq

/-- The filesystem as seen through `statSync`; `none` models a throwing
`statSync` (path does not exist). -/
def Fs : Type := String → Option FileStat

/-- Parsed CLI options (`program.opts()`, `src/apps/cli.ts` lines 23-77).
`Option` fields model possibly-undefined values. -/
structure CliOptions where
  config : Option String
  logLevel : Option String
  workspace : Option String
  port : Option Int
  host : String
  dev : Bool
  mock : Bool
  validate : Bool
  listTools : Bool
  healthCheck : Bool
  dockerSocket : Option String
  k8sNamespace : Option String
deriving DecidableEq

/-- `src/apps/cli.ts` line 83. -/
def validLogLevels : List String := [("debug"), ("info"), ("warn"), ("error")]

/-- Error text pushed at line 85. -/
def logLevelMsg (l : String) : String :=
  ("Invalid log level: ") ++ l ++ (". Valid options: ") ++
    String.intercalate (", ") validLogLevels

/-- Error text pushed at line 90. -/
def portMsg (n : Int) : String :=
  ("Invalid port: ") ++ toString n ++ (". Must be between 1 and 65535")

/-- Error text pushed at line 98. -/
def workspaceNotDirMsg (w : String) : String :=
  ("Workspace path is not a directory: ") ++ w

/-- Error text pushed at line 101. -/
def workspaceMissingMsg (w : String) : String :=
  ("Workspace directory does not exist: ") ++ w

/-- Error text pushed at line 110. -/
def dockerSocketMsg (d : String) : String :=
  ("Docker socket not found: ") ++ d ++ (". Try --mock for testing without Docker.")

/-- Error text pushed at line 119. -/
def configMissingMsg (c : String) : String :=
  ("Configuration file not found: ") ++ c

/-- Which `statSync` call site performed a stat, used to state that mock mode
never touches the Docker socket. -/
inductive StatSite
  | workspaceSite
  | dockerSite
  | configSite
deriving DecidableEq

/-- The structured result of `validateOptions` (line 80 and line 123). The
source computes `valid` as `errors.length === 0`. -/
structure ValidationResult where
  valid : Bool
  errors : List String
deriving DecidableEq

/-- Log-level check, lines 83-86: the value is tested for truthiness before
membership in the valid set. -/
def logLevelErrors (opts : CliOptions) : List String :=
  match opts.logLevel with
  | some l => if l ≠ "" ∧ l ∉ validLogLevels then [logLevelMsg l] else []
  | none => []

/-- Port check, lines 89-91: `opts.port && (opts.port < 1 || opts.port > 65535)`;
`0` is falsy in JavaScript, so a zero port skips the range test entirely. -/
def portErrors (opts : CliOptions) : List String :=
  match opts.port with
  | some n => if n ≠ 0 ∧ (n < 1 ∨ n > 65535) then [portMsg n] else []
  | none => []

/-- Workspace check, lines 94-103: stat the path; a throwing `statSync` is
caught and converted into an error entry. Also records the stat performed. -/
def workspaceCheck (opts : CliOptions) (fs : Fs) :
    List String × List (StatSite × String) :=
  match opts.workspace with
  | some w =>
    if w ≠ "" then
      match fs w with
      | some st =>
        (if st.isDirectory then [] else [workspaceNotDirMsg w],
         [(StatSite.workspaceSite, w)])
      | none => ([workspaceMissingMsg w], [(StatSite.workspaceSite, w)])
    else ([], [])
  | none => ([], [])

/-- Docker-socket check, lines 106-112: guarded by `!opts.mock && opts.dockerSocket`,
so mock mode skips the stat entirely. A throwing `statSync` is caught and
converted into an error entry. -/
def dockerSocketCheck (opts : CliOptions) (fs : Fs) :
    List String × List (StatSite × String) :=
  match opts.dockerSocket with
  | some d =>
    if opts.mock = false ∧ d ≠ "" then
      match fs d with
      | some _ => ([], [(StatSite.dockerSite, d)])
      | none => ([dockerSocketMsg d], [(StatSite.dockerSite, d)])
    else ([], [])
  | none => ([], [])

/-- Config-file check, lines 115-121. -/
def configCheck (opts : CliOptions) (fs : Fs) :
    List String × List (StatSite × String) :=
  match opts.config with
  | some c =>
    if c ≠ "" then
      match fs c with
      | some _ => ([], [(StatSite.configSite, c)])
      | none => ([configMissingMsg c], [(StatSite.configSite, c)])
    else ([], [])
  | none => ([], [])

/-- `validateOptions`, lines 80-124, instrumented with the list of stats it
performs. The five checks push onto a single `errors` array in order; none of
them reads the array, and every `statSync` failure is caught locally. -/
def validateOptionsAux (opts : CliOptions) (fs : Fs) :
    ValidationResult × List (StatSite × String) :=
  let errors : List String := []
  let errors := errors ++ logLevelErrors opts
  let errors := errors ++ portErrors opts
  let ws := workspaceCheck opts fs
  let errors := errors ++ ws.1
  let dk := dockerSocketCheck opts fs
  let errors := errors ++ dk.1
  let cf := configCheck opts fs
  let errors := errors ++ cf.1
  ({ valid := errors.length == 0, errors := errors }, ws.2 ++ dk.2 ++ cf.2)

/-- `validateOptions` as the caller sees it (the stat trace dropped). -/
def validateOptions (opts : CliOptions) (fs : Fs) : ValidationResult :=
  (validateOptionsAux opts fs).1

theorem validateOptions_errors_eq (opts : CliOptions) (fs : Fs) :
    (validateOptions opts fs).errors =
      logLevelErrors opts ++ portErrors opts ++ (workspaceCheck opts fs).1 ++
        (dockerSocketCheck opts fs).1 ++ (configCheck opts fs).1 := by
  simp [validateOptions, validateOptionsAux]

theorem validateOptions_valid_eq (opts : CliOptions) (fs : Fs) :
    (validateOptions opts fs).valid =
      ((validateOptions opts fs).errors.length == 0) := rfl

theorem validateOptions_valid_iff (opts : CliOptions) (fs : Fs) :
    (validateOptions opts fs).valid = true ↔ (validateOptions opts fs).errors = [] := by
  rw [validateOptions_valid_eq]
  simp [List.length_eq_zero]

/-! ### Substring matching (the model of JavaScript `String.prototype.includes`) -/

/-- `chStarts p l` is true when the character list `l` starts with `p`. -/
def chStarts : List Char → List Char → Bool
  | [], _ => true
  | _ :: _, [] => false
  | a :: as, b :: bs => a == b && chStarts as bs

/-- `chSub sub l` is true when `sub` occurs contiguously inside `l`. -/
def chSub (sub : List Char) : List Char → Bool
  | [] => sub.isEmpty
  | c :: cs => chStarts sub (c :: cs) || chSub sub cs

/-- JavaScript `msg.includes(sub)`. -/
def strIncl (s sub : String) : Bool := chSub sub.data s.data

theorem strData_append (a b : String) : (a ++ b).data = a.data ++ b.data := by
  cases a
  cases b
  rfl

theorem chStarts_append_of_le (p l r : List Char) (h : p.length ≤ l.length) :
    chStarts p (l ++ r) = chStarts p l := by
  induction p generalizing l with
  | nil => rfl
  | cons a as ih =>
    cases l with
    | nil => exact absurd h (by simp)
    | cons b bs =>
      simp only [List.cons_append]
      show (a == b && chStarts as (bs ++ r)) = (a == b && chStarts as bs)
      rw [ih bs (by simpa using h)]

theorem chStarts_cons_false (a b : Char) (as bs : List Char) (h : (a == b) = false) :
    chStarts (a :: as) (b :: bs) = false := by
  show (a == b && chStarts as bs) = false
  rw [h]
  rfl

/-- An error string is port-related when it carries the port-check text. -/
def isPortError (e : String) : Bool :=
  chStarts (("Invalid port:").data) e.data

/-- An error string is Docker-socket-related when it carries the
docker-socket-check text. -/
def isDockerSocketError (e : String) : Bool :=
  chStarts (("Docker socket not found:").data) e.data

theorem isPortError_portMsg (n : Int) : isPortError (portMsg n) = true := by
  unfold isPortError portMsg
  rw [strData_append, strData_append, List.append_assoc,
    chStarts_append_of_le _ _ _ (by decide)]
  decide

theorem isPortError_logLevelMsg (l : String) : isPortError (logLevelMsg l) = false := by
  unfold isPortError logLevelMsg
  rw [strData_append, strData_append, strData_append, List.append_assoc,
    List.append_assoc, chStarts_append_of_le _ _ _ (by decide)]
  decide

theorem isPortError_wsNotDir (w : String) : isPortError (workspaceNotDirMsg w) = false := by
  unfold isPortError workspaceNotDirMsg
  rw [strData_append, chStarts_append_of_le _ _ _ (by decide)]
  decide

theorem isPortError_wsMissing (w : String) : isPortError (workspaceMissingMsg w) = false := by
  unfold isPortError workspaceMissingMsg
  rw [strData_append, chStarts_append_of_le _ _ _ (by decide)]
  decide

theorem isPortError_dockerMsg (d : String) : isPortError (dockerSocketMsg d) = false := by
  unfold isPortError dockerSocketMsg
  rw [strData_append, strData_append, List.append_assoc,
    chStarts_append_of_le _ _ _ (by decide)]
  decide

theorem isPortError_configMsg (c : String) : isPortError (configMissingMsg c) = false := by
  unfold isPortError configMissingMsg
  rw [strData_append, chStarts_append_of_le _ _ _ (by decide)]
  decide

theorem isDockerSocketError_dockerMsg (d : String) :
    isDockerSocketError (dockerSocketMsg d) = true := by
  unfold isDockerSocketError dockerSocketMsg
  rw [strData_append, strData_append, List.append_assoc,
    chStarts_append_of_le _ _ _ (by decide)]
  decide

theorem isDockerSocketError_logLevelMsg (l : String) :
    isDockerSocketError (logLevelMsg l) = false := by
  unfold isDockerSocketError logLevelMsg
  rw [strData_append, strData_append, strData_append, List.append_assoc,
    List.append_assoc,
    show (("Invalid log level: ").data) = 'I' :: (("nvalid log level: ").data) from rfl,
    List.cons_append]
  exact chStarts_cons_false _ _ _ _ (by decide)

theorem isDockerSocketError_portMsg (n : Int) :
    isDockerSocketError (portMsg n) = false := by
  unfold isDockerSocketError portMsg
  rw [strData_append, strData_append, List.append_assoc,
    show (("Invalid port: ").data) = 'I' :: (("nvalid port: ").data) from rfl,
    List.cons_append]
  exact chStarts_cons_false _ _ _ _ (by decide)

theorem isDockerSocketError_wsNotDir (w : String) :
    isDockerSocketError (workspaceNotDirMsg w) = false := by
  unfold isDockerSocketError workspaceNotDirMsg
  rw [strData_append,
    show (("Workspace path is not a directory: ").data) =
      'W' :: (("orkspace path is not a directory: ").data) from rfl,
    List.cons_append]
  exact chStarts_cons_false _ _ _ _ (by decide)

theorem isDockerSocketError_wsMissing (w : String) :
    isDockerSocketError (workspaceMissingMsg w) = false := by
  unfold isDockerSocketError workspaceMissingMsg
  rw [strData_append,
    show (("Workspace directory does not exist: ").data) =
      'W' :: (("orkspace directory does not exist: ").data) from rfl,
    List.cons_append]
  exact chStarts_cons_false _ _ _ _ (by decide)

theorem isDockerSocketError_configMsg (c : String) :
    isDockerSocketError (configMissingMsg c) = false := by
  unfold isDockerSocketError configMissingMsg
  rw [strData_append,
    show (("Configuration file not found: ").data) =
      'C' :: (("onfiguration file not found: ").data) from rfl,
    List.cons_append]
  exact chStarts_cons_false _ _ _ _ (by decide)

/-! ### Per-check counting lemmas -/

theorem countP_logLevelErrors (p : String → Bool)
    (h : ∀ l, p (logLevelMsg l) = false) (opts : CliOptions) :
    (logLevelErrors opts).countP p = 0 := by
  unfold logLevelErrors
  rcases opts.logLevel with _ | l
  · rfl
  · by_cases hc : l ≠ "" ∧ l ∉ validLogLevels
    · simp [hc, List.countP_cons, h]
    · simp [hc]

theorem countP_portErrors (p : String → Bool)
    (h : ∀ n, p (portMsg n) = false) (opts : CliOptions) :
    (portErrors opts).countP p = 0 := by
  unfold portErrors
  rcases opts.port with _ | n
  · rfl
  · by_cases hc : n ≠ 0 ∧ (n < 1 ∨ n > 65535)
    · simp [hc, List.countP_cons, h]
    · simp [hc]

theorem countP_workspaceCheck (p : String → Bool)
    (h1 : ∀ w, p (workspaceNotDirMsg w) = false)
    (h2 : ∀ w, p (workspaceMissingMsg w) = false)
    (opts : CliOptions) (fs : Fs) :
    ((workspaceCheck opts fs).1).countP p = 0 := by
  unfold workspaceCheck
  rcases opts.workspace with _ | w
  · rfl
  · by_cases hw : w ≠ ""
    · rcases hfw : fs w with _ | st
      · simp [hw, hfw, List.countP_cons, h2]
      · rcases hd : st.isDirectory
        · simp [hw, hfw, hd, List.countP_cons, h1]
        · simp [hw, hfw, hd]
    · simp [hw]

theorem countP_dockerSocketCheck (p : String → Bool)
    (h : ∀ d, p (dockerSocketMsg d) = false)
    (opts : CliOptions) (fs : Fs) :
    ((dockerSocketCheck opts fs).1).countP p = 0 := by
  unfold dockerSocketCheck
  rcases opts.dockerSocket with _ | d
  · rfl
  · by_cases hc : opts.mock = false ∧ d ≠ ""
    · rcases hfd : fs d with _ | st
      · simp [hc, hfd, List.countP_cons, h]
      · simp [hc, hfd]
    · simp [hc]

theorem countP_configCheck (p : String → Bool)
    (h : ∀ c, p (configMissingMsg c) = false)
    (opts : CliOptions) (fs : Fs) :
    ((configCheck opts fs).1).countP p = 0 := by
  unfold configCheck
  rcases opts.config with _ | c
  · rfl
  · by_cases hc : c ≠ ""
    · rcases hfc : fs c with _ | st
      · simp [hc, hfc, List.countP_cons, h]
      · simp [hc, hfc]
    · simp [hc]

theorem portErrors_out_of_range (opts : CliOptions) (n : Int)
    (hp : opts.port = some n) (h0 : n ≠ 0) (hr : n < 1 ∨ n > 65535) :
    portErrors opts = [portMsg n] := by
  unfold portErrors
  rw [hp]
  simp [h0, hr]

theorem dockerSocketCheck_mock (opts : CliOptions) (fs : Fs)
    (hm : opts.mock = true) : dockerSocketCheck opts fs = ([], []) := by
  unfold dockerSocketCheck
  rcases opts.dockerSocket with _ | d
  · rfl
  · simp [hm]

theorem dockerSocketCheck_missing (opts : CliOptions) (fs : Fs) (d : String)
    (hm : opts.mock = false) (hd : opts.dockerSocket = some d) (hne : d ≠ "")
    (hfs : fs d = none) :
    dockerSocketCheck opts fs = ([dockerSocketMsg d], [(StatSite.dockerSite, d)]) := by
  unfold dockerSocketCheck
  rw [hd]
  simp [hm, hne, hfs]

theorem validateOptionsAux_stats (opts : CliOptions) (fs : Fs) :
    (validateOptionsAux opts fs).2 =
      (workspaceCheck opts fs).2 ++ (dockerSocketCheck opts fs).2 ++
        (configCheck opts fs).2 := rfl

theorem workspaceCheck_sites (opts : CliOptions) (fs : Fs) :
    ∀ q ∈ (workspaceCheck opts fs).2, q.1 = StatSite.workspaceSite := by
  unfold workspaceCheck
  rcases opts.workspace with _ | w
  · simp
  · by_cases hw : w ≠ ""
    · rcases hfw : fs w with _ | st <;> simp [hw, hfw]
    · simp [hw]

theorem configCheck_sites (opts : CliOptions) (fs : Fs) :
    ∀ q ∈ (configCheck opts fs).2, q.1 = StatSite.configSite := by
  unfold configCheck
  rcases opts.config with _ | c
  · simp
  · by_cases hc : c ≠ ""
    · rcases hfc : fs c with _ | st <;> simp [hc, hfc]
    · simp [hc]

/-! ### Claims C4, C5, C6 -/

/-- C4 (amended): for every option set in which port was explicitly provided,
is nonzero, and lies outside [1, 65535], validation fails and the returned
error list contains exactly one port-related error. (Port 0 is falsy in the
source's truthiness guard `opts.port && ...`, so it skips the range check;
see the counterexample.) -/
theorem c4_port_range_amended (opts : CliOptions) (fs : Fs) (n : Int)
    (hp : opts.port = some n) (h0 : n ≠ 0) (hr : n < 1 ∨ n > 65535) :
    (validateOptions opts fs).valid = false ∧
    ((validateOptions opts fs).errors.countP (fun e => isPortError e)) = 1 := by
  have hdecomp := validateOptions_errors_eq opts fs
  have hport := portErrors_out_of_range opts n hp h0 hr
  constructor
  · have hne : (validateOptions opts fs).errors ≠ [] := by
      rw [hdecomp, hport]
      intro hnil
      simp at hnil
    cases hval : (validateOptions opts fs).valid
    · rfl
    · exact absurd ((validateOptions_valid_iff opts fs).mp hval) hne
  · rw [hdecomp, hport]
    simp [List.countP_append, List.countP_cons,
      countP_logLevelErrors _ isPortError_logLevelMsg,
      countP_workspaceCheck _ isPortError_wsNotDir isPortError_wsMissing,
      countP_dockerSocketCheck _ isPortError_dockerMsg,
      countP_configCheck _ isPortError_configMsg,
      isPortError_portMsg]

/-- C4 counterexample: with port explicitly provided as 0 (and every other
option in order), validation succeeds with no errors at all, contradicting
the claim that port = 0 makes validation fail with a port error. -/
theorem c4_port_zero_counterexample :
    ({ config := none, logLevel := some ("info"), workspace := some ("/ws"),
       port := some 0, host := ("localhost"), dev := false, mock := true,
       validate := false, listTools := false, healthCheck := false,
       dockerSocket := some ("/var/run/docker.sock"),
       k8sNamespace := some ("default") } : CliOptions).port = some 0 ∧
    (validateOptions
      { config := none, logLevel := some ("info"), workspace := some ("/ws"),
        port := some 0, host := ("localhost"), dev := false, mock := true,
        validate := false, listTools := false, healthCheck := false,
        dockerSocket := some ("/var/run/docker.sock"),
        k8sNamespace := some ("default") }
      (fun p => if p = ("/ws") then some { isDirectory := true } else none)) =
      { valid := true, errors := [] } := by
  constructor
  · rfl
  · rfl

/-- C5: with mockMode true the docker-socket check performs no stat and
contributes no error (no stat in the whole validation targets the docker
site, and the error list carries no docker-socket error); with mockMode
false, a set docker socket path whose stat fails contributes exactly one
docker-socket error. -/
theorem c5_mock_docker (opts : CliOptions) (fs : Fs) :
    (opts.mock = true →
      (∀ q ∈ (validateOptionsAux opts fs).2, q.1 ≠ StatSite.dockerSite) ∧
      ((validateOptions opts fs).errors.countP (fun e => isDockerSocketError e)) = 0) ∧
    (∀ d, opts.mock = false → opts.dockerSocket = some d → d ≠ "" → fs d = none →
      ((validateOptions opts fs).errors.countP (fun e => isDockerSocketError e)) = 1) := by
  constructor
  · intro hm
    constructor
    · intro q hq
      rw [validateOptionsAux_stats, dockerSocketCheck_mock opts fs hm] at hq
      simp at hq
      rcases hq with hq | hq
      · rw [workspaceCheck_sites opts fs q hq]
        simp
      · rw [configCheck_sites opts fs q hq]
        simp
    · rw [validateOptions_errors_eq]
      simp [List.countP_append, dockerSocketCheck_mock opts fs hm,
        countP_logLevelErrors _ isDockerSocketError_logLevelMsg,
        countP_portErrors _ isDockerSocketError_portMsg,
        countP_workspaceCheck _ isDockerSocketError_wsNotDir isDockerSocketError_wsMissing,
        countP_configCheck _ isDockerSocketError_configMsg]
  · intro d hm hd hne hfs
    rw [validateOptions_errors_eq]
    simp [List.countP_append, List.countP_cons,
      dockerSocketCheck_missing opts fs d hm hd hne hfs,
      countP_logLevelErrors _ isDockerSocketError_logLevelMsg,
      countP_portErrors _ isDockerSocketError_portMsg,
      countP_workspaceCheck _ isDockerSocketError_wsNotDir isDockerSocketError_wsMissing,
      countP_configCheck _ isDockerSocketError_configMsg,
      isDockerSocketError_dockerMsg]

/-- C6: validateOptions is total and accumulating: it always returns a
structured result (stat failures become error entries by construction of
`Fs`), its error list is the concatenation of the five independent checks
(log level, port, workspace, docker socket, config), each evaluated
regardless of the others, and `valid` is true exactly when the error list is
empty. -/
theorem c6_validate_total_accumulating (opts : CliOptions) (fs : Fs) :
    (validateOptions opts fs).errors =
      logLevelErrors opts ++ portErrors opts ++ (workspaceCheck opts fs).1 ++
        (dockerSocketCheck opts fs).1 ++ (configCheck opts fs).1 ∧
    ((validateOptions opts fs).valid = true ↔ (validateOptions opts fs).errors = []) :=
  ⟨validateOptions_errors_eq opts fs, validateOptions_valid_iff opts fs⟩

/-- A well-formed baseline option set matching the commander defaults, used
by the concrete witnesses: run mode, no port, mock off, workspace `/ws`. -/
def optsBase : CliOptions :=
  { config := none, logLevel := some ("info"), workspace := some ("/ws"),
    port := none, host := ("localhost"), dev := false, mock := false,
    validate := false, listTools := false, healthCheck := false,
    dockerSocket := some ("/var/run/docker.sock"),
    k8sNamespace := some ("default") }

/-- A filesystem with the workspace directory and the Docker socket present. -/
def fsGood : Fs := fun p =>
  if p = ("/ws") then some { isDirectory := true }
  else if p = ("/var/run/docker.sock") then some { isDirectory := false }
  else none

/-- A filesystem with the workspace directory but no Docker socket. -/
def fsNoDocker : Fs := fun p =>
  if p = ("/ws") then some { isDirectory := true } else none

/-- C4 witness: port 70000 is provided, nonzero and out of range, and
validation indeed fails with exactly one port-related error. -/
theorem c4_port_range_witness :
    (validateOptions { optsBase with port := some 70000 } fsGood).valid = false ∧
    ((validateOptions { optsBase with port := some 70000 } fsGood).errors.countP
      (fun e => isPortError e)) = 1 :=
  c4_port_range_amended { optsBase with port := some 70000 } fsGood 70000 rfl
    (by decide) (by decide)

/-- C5 witness: with mock on, a missing Docker socket yields no docker-socket
error; with mock off it yields exactly one. -/
theorem c5_mock_docker_witness :
    ((validateOptions { optsBase with mock := true } fsNoDocker).errors.countP
      (fun e => isDockerSocketError e)) = 0 ∧
    ((validateOptions optsBase fsNoDocker).errors.countP
      (fun e => isDockerSocketError e)) = 1 :=
  ⟨((c5_mock_docker { optsBase with mock := true } fsNoDocker).1 rfl).2,
   (c5_mock_docker optsBase fsNoDocker).2 ("/var/run/docker.sock") rfl rfl
     (by decide) rfl⟩

/-! ### The collaborator server and the rest of the world -/

/-- One `ToolDescriptor` from the collaborator's tool registry; `category`
may be absent (line 203 defaults it to utility). -/
structure Tool where
  name : String
  description : String
  category : Option String
deriving DecidableEq

/-- The value of `await server.listTools()`: either it carries a `tools`
array, or it does not (line 201 tests `'tools' in toolList && Array.isArray`). -/
inductive ToolListResult
  | withTools (tools : List Tool)
  | noToolsField
deriving DecidableEq

/-- `HealthReport` as read by the health-check mode (lines 227-248): the
source compares `health.status === 'healthy'`. -/
structure HealthReport where
  status : String
  uptime : Nat
  services : List (String × Bool)
  metrics : Option (List (String × String))
deriving DecidableEq

deriving instance DecidableEq for Except

/-- The externally supplied `ContainerKitMCPServer` object, modelled by the
outcome of each of its awaited operations; `.error msg` models a throw whose
`Error.message` is `msg`. -/
structure Server where
  initRes : Except String Unit
  toolsRes : Except String ToolListResult
  healthRes : Except String HealthReport
  startRes : Except String Unit
  shutdownRes : Except String Unit
deriving DecidableEq

/-- Ambient state outside the CLI: the filesystem, the outcomes of the two
`execSync` connectivity probes of validate mode, and the package version. -/
structure World where
  fs : Fs
  dockerCliOk : Bool
  kubectlOk : Bool
  packageVersion : String

/-- The process environment, read through `process.env`. -/
def Env : Type := String → Option String

def setEnv (e : Env) (k v : String) : Env :=
  fun q => if q = k then some v else e q

def applyEnvWrites (e : Env) (ws : List (String × String)) : Env :=
  ws.foldl (fun acc kv => setEnv acc kv.1 kv.2) e

/-- The environment writes of lines 138-143, in source order; each guarded
by truthiness of the corresponding option. -/
def envWritesOf (opts : CliOptions) : List (String × String) :=
  (match opts.logLevel with
   | some l => if l ≠ "" then [(("LOG_LEVEL"), l)] else []
   | none => []) ++
  (match opts.workspace with
   | some ws => if ws ≠ "" then [(("WORKSPACE_DIR"), ws)] else []
   | none => []) ++
  (match opts.dockerSocket with
   | some d => if d ≠ "" then [(("DOCKER_SOCKET"), d)] else []
   | none => []) ++
  (match opts.k8sNamespace with
   | some k => if k ≠ "" then [(("K8S_NAMESPACE"), k)] else []
   | none => []) ++
  (if opts.dev then [(("NODE_ENV"), ("development"))] else []) ++
  (if opts.mock then [(("MOCK_MODE"), ("true"))] else [])

/-- Modelled from the spec: `createConfig` lives in `src/config` which is not
under `src/`; per the spec it reads the environment variables written during
normalization back into a configuration structure. Only the two fields the
CLI prints are modelled. -/
structure Config where
  logLevel : String
  workspaceDir : String

/-- Modelled from the spec: the configuration constructor (environment-
variable-mediated, with the documented defaults). -/
def createConfig (env : Env) : Config :=
  { logLevel := (env ("LOG_LEVEL")).getD ("info"),
    workspaceDir := (env ("WORKSPACE_DIR")).getD ("") }

/-! ### List-tools rendering (lines 198-220) -/

/-- `'═'.repeat(60)`, line 199. -/
def sep60 : String := String.mk (List.replicate 60 '═')

/-- `'═'.repeat(40)`, line 230. -/
def sep40 : String := String.mk (List.replicate 40 '═')

/-- `tool.category || 'utility'`, line 203: a truthiness test, so an absent
category and an empty-string category both fall back to utility. -/
def catOf (t : Tool) : String :=
  match t.category with
  | some c => if c ≠ "" then c else ("utility")
  | none => ("utility")

/-- One `reduce` step, lines 202-207: push onto the existing group of the
category, else append a fresh group; a JS object with string keys preserves
insertion order, so the accumulator is an insertion-ordered association
list. -/
def addToGroup : List (String × List Tool) → String → Tool → List (String × List Tool)
  | [], c, t => [(c, [t])]
  | (k, v) :: rest, c, t =>
    if k = c then (k, v ++ [t]) :: rest else (k, v) :: addToGroup rest c t

/-- `toolList.tools.reduce(...)`, lines 202-207. -/
def groupByCategory (ts : List Tool) : List (String × List Tool) :=
  ts.foldl (fun acc t => addToGroup acc (catOf t) t) []

/-- JavaScript `toUpperCase`, line 210, on its ASCII fragment (`Char.toUpper`
maps a-z to A-Z and is the identity elsewhere; it agrees with the Unicode-wide
JS conversion exactly on ASCII strings, so statements about headers are made
only under an ASCII hypothesis on the category names). -/
def strUpper (s : String) : String := String.mk (s.data.map Char.toUpper)

/-- Whether every character of `s` is ASCII — the domain on which `strUpper`
agrees with the JS `toUpperCase`. -/
def isAsciiStr (s : String) : Bool := s.data.all (fun c => c.toNat < 128)

/-- The numeric value of a digit string. -/
def digitsVal (cs : List Char) : Nat :=
  cs.foldl (fun n c => n * 10 + (c.toNat - 48)) 0

/-- An ECMAScript array index: a canonical numeric string (no leading zero
except `0` itself) whose value is below 2^32 - 1. Such object keys enumerate
before all other string keys, in ascending numeric order. -/
def isArrayIndexStr (s : String) : Bool :=
  (match s.data with
   | [] => false
   | [c] => c.isDigit
   | c :: cs => c.isDigit && !(c = '0') && cs.all (fun d => d.isDigit)) &&
  digitsVal s.data < 4294967295

/-- Insertion into a list of groups sorted by ascending numeric key value. -/
def insertByVal (p : String × List Tool) :
    List (String × List Tool) → List (String × List Tool)
  | [] => [p]
  | q :: rest =>
    if digitsVal p.1.data < digitsVal q.1.data then p :: q :: rest
    else q :: insertByVal p rest

/-- Insertion sort of groups by ascending numeric key value. -/
def sortByVal : List (String × List Tool) → List (String × List Tool)
  | [] => []
  | p :: rest => insertByVal p (sortByVal rest)

/-- `Object.entries` enumeration order on a string-keyed object
(ECMAScript OwnPropertyKeys): array-index keys first in ascending numeric
order, then the remaining string keys in insertion order. -/
def entriesOrder (g : List (String × List Tool)) : List (String × List Tool) :=
  sortByVal (g.filter (fun p => isArrayIndexStr p.1)) ++
    g.filter (fun p => !(isArrayIndexStr p.1))

/-- JavaScript `padEnd(25)`, line 212. -/
def padEnd25 (s : String) : String :=
  s ++ String.mk (List.replicate (25 - s.length) ' ')

/-- One tool line, line 212. -/
def toolLine (t : Tool) : String :=
  ("  • ") ++ padEnd25 t.name ++ (" ") ++ t.description

/-- One category group: header (line 210) then its tools (lines 211-213). -/
def renderGroup (g : String × List Tool) : List String :=
  (("\n📁 ") ++ strUpper g.1) :: g.2.map toolLine

/-- The total-count message, line 216. -/
def totalMsg (n : Nat) : String :=
  ("\nTotal: ") ++ toString n ++ (" tools available")

/-- The console output of the guarded block at lines 201-217: nothing at all
when the result has no `tools` array; otherwise the groups in
`Object.entries` enumeration order, then the total line. -/
def toolListMsgs : ToolListResult → List String
  | .withTools ts =>
    ((entriesOrder (groupByCategory ts)).map renderGroup).flatten ++
      [totalMsg ts.length]
  | .noToolsField => []

/-! ### Error classification and the outer catch (lines 296-349) -/

/-- The four diagnostic categories. -/
structure ErrorCats where
  docker : Bool
  port : Bool
  permission : Bool
  config : Bool
deriving DecidableEq

/-- The four independent substring tests of lines 304, 312, 319 and 326. -/
def classify (msg : String) : ErrorCats :=
  { docker := strIncl msg ("Docker") || strIncl msg ("ENOENT"),
    port := strIncl msg ("EADDRINUSE"),
    permission := strIncl msg ("permission") || strIncl msg ("EACCES"),
    config := strIncl msg ("config") || strIncl msg ("Config") }

/-- Guidance block of lines 305-310. -/
def dockerBlock : List String :=
  [("\n💡 Docker-related issue detected:"),
   ("  • Ensure Docker Desktop is running"),
   ("  • Check Docker socket path: --docker-socket <path>"),
   ("  • Try mock mode for testing: --mock"),
   ("  • Verify Docker installation: docker version")]

/-- Guidance block of lines 313-317. -/
def portConflictBlock : List String :=
  [("\n💡 Port already in use:"),
   ("  • Try a different port: --port <number>"),
   ("  • Check running processes: lsof -i :<port>"),
   ("  • Use stdio transport (default) instead of HTTP")]

/-- Guidance block of lines 320-324. -/
def permissionBlock : List String :=
  [("\n💡 Permission issue detected:"),
   ("  • Check file/directory permissions"),
   ("  • Ensure workspace is readable: --workspace <path>"),
   ("  • Try running with appropriate permissions")]

/-- Guidance block of lines 327-331. -/
def configBlock : List String :=
  [("\n💡 Configuration issue:"),
   ("  • Copy .env.example to .env"),
   ("  • Validate config: --validate"),
   ("  • Check config file path: --config <path>")]

/-- The category-conditional guidance output, lines 304-331: each matched
category contributes its own block, independently. -/
def guidanceMsgs (msg : String) : List String :=
  (if (classify msg).docker then dockerBlock else []) ++
  (if (classify msg).port then portConflictBlock else []) ++
  (if (classify msg).permission then permissionBlock else []) ++
  (if (classify msg).config then configBlock else [])

/-- Fixed troubleshooting output, lines 333-338. -/
def troubleshootMsgs : List String :=
  [("\n🛠️ Troubleshooting steps:"),
   ("  1. Run health check: container-kit-mcp --health-check"),
   ("  2. Validate config: container-kit-mcp --validate"),
   ("  3. Try mock mode: container-kit-mcp --mock"),
   ("  4. Enable debug logging: --log-level debug"),
   ("  5. Check the documentation: docs/TROUBLESHOOTING.md")]

/-- The outer catch, lines 296-349, on a thrown error with message `msg`.
Thrown collaborator errors are modelled by their message alone; a modelled
error carries no stack, so the dev-mode stack branch prints nothing and the
non-dev hint prints exactly as in the source (lines 340-345). -/
def catchMsgs (opts : CliOptions) (msg : String) : List String :=
  [("❌ Server startup failed"), (("\n🔍 Error: ") ++ msg)] ++
  guidanceMsgs msg ++ troubleshootMsgs ++
  (if opts.dev then []
   else [("\n💡 For detailed error information, use --dev flag")])

/-! ### The lifecycle orchestrator `main` (lines 126-350) -/

/-- The four mutually exclusive execution modes. -/
inductive Mode
  | validateMode
  | listToolsMode
  | healthMode
  | runMode
deriving DecidableEq

/-- The collaborator server operations this layer can invoke. -/
inductive ServerOp
  | initCall
  | listToolsCall
  | getHealthCall
  | startCall
  | shutdownCall
deriving DecidableEq

/-- Observable outcome of one `main` invocation: the exit code (`none` while
run mode stays in the event loop), the modes entered, the environment writes
performed, the collaborator operations invoked in order, and the console.log
and console.error call arguments in order. -/
structure MainOutcome where
  exitCode : Option Nat
  modes : List Mode
  envWrites : List (String × String)
  serverOps : List ServerOp
  configBuilt : Bool
  outMsgs : List String
  errMsgs : List String
deriving DecidableEq

/-- Validate-mode console output, lines 152-186. -/
def validateModeMsgs (opts : CliOptions) (w : World) (config : Config)
    (env : Env) : List String :=
  [("🔍 Validating Container Kit MCP configuration...\n"),
   ("📋 Configuration Summary:"),
   (("  • Log Level: ") ++ config.logLevel),
   (("  • Workspace: ") ++ config.workspaceDir),
   (("  • Docker Socket: ") ++ ((env ("DOCKER_SOCKET")).getD ("/var/run/docker.sock"))),
   (("  • K8s Namespace: ") ++ ((env ("K8S_NAMESPACE")).getD ("default"))),
   (("  • Mock Mode: ") ++
     (if env ("MOCK_MODE") = some ("true") then ("enabled") else ("disabled"))),
   (("  • Environment: ") ++ ((env ("NODE_ENV")).getD ("production")))] ++
  (if opts.mock = false then
     [("\n🐳 Testing Docker connection...")] ++
     (if w.dockerCliOk then [("  ✅ Docker connection successful")]
      else [("  ⚠️  Docker connection failed - consider using --mock for testing")])
   else []) ++
  [("\n☸️  Testing Kubernetes connection...")] ++
  (if w.kubectlOk then [("  ✅ Kubernetes client available")]
   else [("  ⚠️  Kubernetes client not found - kubectl not in PATH")]) ++
  [("\n✅ Configuration validation complete!"),
   ("\nNext steps:"),
   ("  • Start server: container-kit-mcp"),
   ("  • List tools: container-kit-mcp --list-tools"),
   ("  • Health check: container-kit-mcp --health-check")]

/-- Health-check console output, lines 229-245. -/
def healthMsgs (h : HealthReport) : List String :=
  [("🏥 Health Check Results"), sep40,
   (("Status: ") ++
     (if h.status = ("healthy") then ("✅ Healthy") else ("❌ Unhealthy"))),
   (("Uptime: ") ++ toString h.uptime ++ ("s")),
   ("\nServices:")] ++
  h.services.map (fun sv =>
    ("  ") ++ (if sv.2 then ("✅") else ("❌")) ++ (" ") ++ sv.1) ++
  (match h.metrics with
   | some ms => [("\nMetrics:")] ++ ms.map (fun m => ("  📊 ") ++ m.1 ++ (": ") ++ m.2)
   | none => [])

/-- Run-mode startup banner, lines 260-271 (printed before `server.start()`). -/
def startBannerMsgs (opts : CliOptions) (config : Config) (version : String) :
    List String :=
  [("🚀 Starting Container Kit MCP Server..."),
   (("📦 Version: ") ++ version),
   (("🏠 Workspace: ") ++ config.workspaceDir),
   (("📊 Log Level: ") ++ config.logLevel)] ++
  (if opts.mock then [("🤖 Running with mock AI sampler")] else []) ++
  (if opts.dev then [("🔧 Development mode enabled")] else [])

/-- `main`, lines 126-350: validation, environment normalization, mode
dispatch in the fixed source order (validate, list-tools, health-check, run),
with every thrown collaborator error landing in the outer catch. -/
def main (opts : CliOptions) (w : World) (srv : Server) (env : Env) : MainOutcome :=
  let validation := validateOptions opts w.fs
  if validation.valid = false then
    { exitCode := some 1, modes := [], envWrites := [], serverOps := [],
      configBuilt := false, outMsgs := [],
      errMsgs := [("❌ Configuration errors:")] ++
        validation.errors.map (fun e => ("  • ") ++ e) ++
        [("\nUse --help for usage information")] }
  else
    let writes := envWritesOf opts
    let env1 := applyEnvWrites env writes
    let config := createConfig env1
    if opts.validate then
      { exitCode := some 0, modes := [Mode.validateMode], envWrites := writes,
        serverOps := [], configBuilt := true,
        outMsgs := validateModeMsgs opts w config env1, errMsgs := [] }
    else if opts.listTools then
      match srv.initRes with
      | .error e =>
        { exitCode := some 1, modes := [Mode.listToolsMode], envWrites := writes,
          serverOps := [ServerOp.initCall], configBuilt := true,
          outMsgs := [], errMsgs := catchMsgs opts e }
      | .ok _ =>
        match srv.toolsRes with
        | .error e =>
          { exitCode := some 1, modes := [Mode.listToolsMode], envWrites := writes,
            serverOps := [ServerOp.initCall, ServerOp.listToolsCall],
            configBuilt := true, outMsgs := [], errMsgs := catchMsgs opts e }
        | .ok res =>
          let listOut := [("Available tools:"), sep60] ++ toolListMsgs res
          match srv.shutdownRes with
          | .error e =>
            { exitCode := some 1, modes := [Mode.listToolsMode],
              envWrites := writes,
              serverOps := [ServerOp.initCall, ServerOp.listToolsCall,
                ServerOp.shutdownCall],
              configBuilt := true, outMsgs := listOut,
              errMsgs := catchMsgs opts e }
          | .ok _ =>
            { exitCode := some 0, modes := [Mode.listToolsMode],
              envWrites := writes,
              serverOps := [ServerOp.initCall, ServerOp.listToolsCall,
                ServerOp.shutdownCall],
              configBuilt := true, outMsgs := listOut, errMsgs := [] }
    else if opts.healthCheck then
      match srv.initRes with
      | .error e =>
        { exitCode := some 1, modes := [Mode.healthMode], envWrites := writes,
          serverOps := [ServerOp.initCall], configBuilt := true,
          outMsgs := [], errMsgs := catchMsgs opts e }
      | .ok _ =>
        match srv.healthRes with
        | .error e =>
          { exitCode := some 1, modes := [Mode.healthMode], envWrites := writes,
            serverOps := [ServerOp.initCall, ServerOp.getHealthCall],
            configBuilt := true, outMsgs := [], errMsgs := catchMsgs opts e }
        | .ok h =>
          match srv.shutdownRes with
          | .error e =>
            { exitCode := some 1, modes := [Mode.healthMode],
              envWrites := writes,
              serverOps := [ServerOp.initCall, ServerOp.getHealthCall,
                ServerOp.shutdownCall],
              configBuilt := true, outMsgs := healthMsgs h,
              errMsgs := catchMsgs opts e }
          | .ok _ =>
            { exitCode := some (if h.status = ("healthy") then 0 else 1),
              modes := [Mode.healthMode], envWrites := writes,
              serverOps := [ServerOp.initCall, ServerOp.getHealthCall,
                ServerOp.shutdownCall],
              configBuilt := true, outMsgs := healthMsgs h, errMsgs := [] }
    else
      match srv.startRes with
      | .error e =>
        { exitCode := some 1, modes := [Mode.runMode], envWrites := writes,
          serverOps := [ServerOp.startCall], configBuilt := true,
          outMsgs := startBannerMsgs opts config w.packageVersion,
          errMsgs := catchMsgs opts e }
      | .ok _ =>
        { exitCode := none, modes := [Mode.runMode], envWrites := writes,
          serverOps := [ServerOp.startCall], configBuilt := true,
          outMsgs := startBannerMsgs opts config w.packageVersion ++
            [("✅ Server started successfully"),
             ("🔌 Listening on stdio transport")],
          errMsgs := [] }

/-! ### The signal-triggered shutdown handler (lines 278-294) -/

/-- Process state once run mode has started: whether the process has exited
(with which code) and how many times `server.shutdown()` has been entered. -/
structure ProcState where
  exited : Option Nat
  teardownCount : Nat
deriving DecidableEq

/-- Delivery of one termination signal (SIGTERM or SIGINT, lines 293-294).
The handler body (lines 278-291) is synchronous and always reaches
`process.exit`; the single-threaded runtime delivers a queued signal callback
only while the process is alive, so a signal arriving after exit does
nothing. -/
def deliverSignal (srv : Server) (s : ProcState) : ProcState :=
  match s.exited with
  | some _ => s
  | none =>
    match srv.shutdownRes with
    | .ok _ => { exited := some 0, teardownCount := s.teardownCount + 1 }
    | .error _ => { exited := some 1, teardownCount := s.teardownCount + 1 }

/-! ### Console lines -/

/-- Splits one console message into the lines it prints (`console.log`
terminates its argument with a newline; embedded newlines break lines). -/
def splitLinesAux : List Char → List Char → List String
  | [], cur => [String.mk cur.reverse]
  | c :: cs, cur =>
    if c = '\n' then String.mk cur.reverse :: splitLinesAux cs []
    else splitLinesAux cs (c :: cur)

/-- The lines a sequence of console calls prints. -/
def consoleLines (msgs : List String) : List String :=
  (msgs.map (fun s => splitLinesAux s.data [])).flatten

/-! ### Properties of the category grouping -/

/-- The category keys of the grouping, in rendering order
(`Object.entries` iterates string keys in insertion order). -/
def groupKeys (g : List (String × List Tool)) : List String := g.map Prod.fst

/-- The tools stored under category `q`. -/
def groupGet (q : String) : List (String × List Tool) → List Tool
  | [] => []
  | (k, v) :: rest => if k = q then v else groupGet q rest

/-- All tools of the grouping, in rendering order. -/
def joinGroups (g : List (String × List Tool)) : List Tool :=
  (g.map Prod.snd).flatten

/-- The spec wording of the rendering order: categories in order of first
occurrence over the returned tool sequence. Stated from the spec, to be
compared with the grouping computed from the source. -/
def specFirstSeenCategories (ts : List Tool) : List String :=
  ts.foldl (fun ks t => if catOf t ∈ ks then ks else ks ++ [catOf t]) []

theorem groupKeys_addToGroup (acc : List (String × List Tool)) (c : String) (t : Tool) :
    groupKeys (addToGroup acc c t) =
      if c ∈ groupKeys acc then groupKeys acc else groupKeys acc ++ [c] := by
  induction acc with
  | nil => simp [addToGroup, groupKeys]
  | cons p rest ih =>
    obtain ⟨k, v⟩ := p
    by_cases hk : k = c
    · subst hk
      simp [addToGroup, groupKeys]
    · unfold addToGroup
      rw [if_neg hk]
      unfold groupKeys at ih ⊢
      simp only [List.map_cons]
      rw [ih]
      by_cases hm : c ∈ List.map Prod.fst rest
      · rw [if_pos hm, if_pos (by simp [List.mem_cons, hm])]
      · rw [if_neg hm, if_neg (by simp [List.mem_cons, hm, Ne.symm hk]),
          List.cons_append]

theorem groupGet_addToGroup (acc : List (String × List Tool)) (c q : String) (t : Tool) :
    groupGet q (addToGroup acc c t) =
      if c = q then groupGet q acc ++ [t] else groupGet q acc := by
  induction acc with
  | nil =>
    by_cases h : c = q <;> simp [addToGroup, groupGet, h]
  | cons p rest ih =>
    obtain ⟨k, v⟩ := p
    by_cases hk : k = c
    · subst hk
      by_cases hq : k = q
      · subst hq
        simp [addToGroup, groupGet]
      · simp [addToGroup, groupGet, hq]
    · by_cases hq : k = q
      · subst hq
        rw [show addToGroup ((k, v) :: rest) c t = (k, v) :: addToGroup rest c t from by
          simp [addToGroup, hk]]
        simp [groupGet, Ne.symm hk]
      · simp [addToGroup, groupGet, hk, hq, ih]

theorem joinGroups_addToGroup (acc : List (String × List Tool)) (c : String) (t : Tool) :
    (joinGroups (addToGroup acc c t)).Perm (joinGroups acc ++ [t]) := by
  induction acc with
  | nil => simp [addToGroup, joinGroups]
  | cons p rest ih =>
    obtain ⟨k, v⟩ := p
    by_cases hk : k = c
    · subst hk
      unfold addToGroup
      rw [if_pos rfl]
      unfold joinGroups
      simp only [List.map_cons, List.flatten_cons]
      rw [List.append_assoc, List.append_assoc]
      exact List.Perm.append_left v (List.perm_append_comm)
    · unfold addToGroup
      rw [if_neg hk]
      unfold joinGroups at ih ⊢
      simp only [List.map_cons, List.flatten_cons]
      rw [List.append_assoc]
      exact (List.Perm.append_left v ih).trans (List.Perm.refl _)

theorem groupByCategory_keys (ts : List Tool) :
    groupKeys (groupByCategory ts) = specFirstSeenCategories ts := by
  suffices h : ∀ acc, groupKeys (ts.foldl (fun a t => addToGroup a (catOf t) t) acc) =
      ts.foldl (fun ks t => if catOf t ∈ ks then ks else ks ++ [catOf t])
        (groupKeys acc) by
    exact h []
  induction ts with
  | nil => intro acc; rfl
  | cons t rest ih =>
    intro acc
    simp only [List.foldl_cons]
    rw [ih, groupKeys_addToGroup]

theorem groupByCategory_get (ts : List Tool) (q : String) :
    groupGet q (groupByCategory ts) = ts.filter (fun t => catOf t == q) := by
  suffices h : ∀ acc, groupGet q (ts.foldl (fun a t => addToGroup a (catOf t) t) acc) =
      groupGet q acc ++ ts.filter (fun t => catOf t == q) by
    simpa [groupGet] using h []
  induction ts with
  | nil => intro acc; simp
  | cons t rest ih =>
    intro acc
    simp only [List.foldl_cons, List.filter_cons]
    rw [ih, groupGet_addToGroup]
    by_cases hc : catOf t = q
    · simp [hc, List.append_assoc]
    · simp [hc]

theorem groupByCategory_perm (ts : List Tool) :
    (joinGroups (groupByCategory ts)).Perm ts := by
  suffices h : ∀ acc,
      (joinGroups (ts.foldl (fun a t => addToGroup a (catOf t) t) acc)).Perm
        (joinGroups acc ++ ts) by
    simpa [groupByCategory, joinGroups] using h []
  induction ts with
  | nil => intro acc; simp
  | cons t rest ih =>
    intro acc
    simp only [List.foldl_cons]
    refine (ih (addToGroup acc (catOf t) t)).trans ?_
    refine ((joinGroups_addToGroup acc (catOf t) t).append_right rest).trans ?_
    rw [List.append_assoc]
    simp

theorem mem_specFirstSeenCategories (ts : List Tool) (x : String)
    (hx : x ∈ specFirstSeenCategories ts) : ∃ t ∈ ts, catOf t = x := by
  have h : ∀ (us : List Tool) (ks : List String), x ∈ us.foldl
      (fun ks t => if catOf t ∈ ks then ks else ks ++ [catOf t]) ks →
      x ∈ ks ∨ ∃ t ∈ us, catOf t = x := by
    intro us
    induction us with
    | nil => intro ks h0; exact Or.inl h0
    | cons t rest ih =>
      intro ks h0
      simp only [List.foldl_cons] at h0
      rcases ih (if catOf t ∈ ks then ks else ks ++ [catOf t]) h0 with h1 | h1
      · by_cases hm : catOf t ∈ ks
        · rw [if_pos hm] at h1
          exact Or.inl h1
        · rw [if_neg hm] at h1
          rcases List.mem_append.mp h1 with h2 | h2
          · exact Or.inl h2
          · refine Or.inr ⟨t, List.mem_cons_self t rest, ?_⟩
            exact (List.mem_singleton.mp h2).symm
      · obtain ⟨u, hu, hcu⟩ := h1
        exact Or.inr ⟨u, List.mem_cons_of_mem t hu, hcu⟩
  rcases h ts [] hx with h0 | h0
  · simp at h0
  · exact h0

theorem entriesOrder_eq_self (g : List (String × List Tool))
    (h : ∀ p ∈ g, isArrayIndexStr p.1 = false) : entriesOrder g = g := by
  have h1 : ∀ l : List (String × List Tool),
      (∀ p ∈ l, isArrayIndexStr p.1 = false) →
      l.filter (fun p => isArrayIndexStr p.1) = [] ∧
      l.filter (fun p => !(isArrayIndexStr p.1)) = l := by
    intro l
    induction l with
    | nil => intro _; exact ⟨rfl, rfl⟩
    | cons q rest ih =>
      intro hl
      have hq := hl q (List.mem_cons_self q rest)
      have hrest := ih (fun p hp => hl p (List.mem_cons_of_mem q hp))
      constructor
      · rw [List.filter_cons, if_neg (by simp [hq]), hrest.1]
      · rw [List.filter_cons, if_pos (by simp [hq]), hrest.2]
  unfold entriesOrder
  rw [(h1 g h).1, (h1 g h).2]
  rfl

/-! ### Concrete fixtures for witnesses and counterexamples -/

/-- World with workspace and Docker socket present and both probes passing. -/
def worldGood : World :=
  { fs := fsGood, dockerCliOk := true, kubectlOk := true,
    packageVersion := ("1.0.0") }

/-- A collaborator server whose every operation succeeds and reports
healthy. -/
def srvOk : Server :=
  { initRes := Except.ok (),
    toolsRes := Except.ok (ToolListResult.withTools []),
    healthRes := Except.ok
      { status := ("healthy"), uptime := 0, services := [], metrics := none },
    startRes := Except.ok (), shutdownRes := Except.ok () }

/-- An empty process environment. -/
def envEmpty : Env := fun _ => none

/-- The two tools of the list-tools scenario of the spec. -/
def exTools : List Tool :=
  [{ name := ("ping"), description := ("Ping the server"),
     category := some ("utility") },
   { name := ("build_image"), description := ("Build a container image"),
     category := some ("build") }]

/-- A server returning the two scenario tools. -/
def srvTwoTools : Server :=
  { srvOk with toolsRes := Except.ok (ToolListResult.withTools exTools) }

/-- A server whose listTools result has no `tools` array. -/
def srvNoToolsField : Server :=
  { srvOk with toolsRes := Except.ok ToolListResult.noToolsField }

/-- A healthy server whose synchronous `shutdown()` throws. -/
def srvShutdownThrows : Server :=
  { srvOk with shutdownRes := Except.error ("shutdown failed") }

/-! ### Claims C1, C2, C3 -/

/-- C1: for every validated option set exactly one mode executes, selected in
the fixed priority order validate, list-tools, health-check, run; in
particular whenever validateOnly is set (even together with listToolsOnly)
only validate-mode runs, exiting 0 without invoking any collaborator server
operation. -/
theorem c1_mode_priority (opts : CliOptions) (w : World) (srv : Server)
    (env : Env) (hv : (validateOptions opts w.fs).valid = true) :
    (main opts w srv env).modes =
      [if opts.validate = true then Mode.validateMode
       else if opts.listTools = true then Mode.listToolsMode
       else if opts.healthCheck = true then Mode.healthMode
       else Mode.runMode] ∧
    (opts.validate = true →
      (main opts w srv env).exitCode = some 0 ∧
      (main opts w srv env).serverOps = []) := by
  obtain ⟨ir, tr, hr, sr, shr⟩ := srv
  constructor
  · rcases hval : opts.validate
    · rcases hlt : opts.listTools
      · rcases hhc : opts.healthCheck
        · cases sr <;> simp [main, hv, hval, hlt, hhc]
        · cases ir
          · simp [main, hv, hval, hlt, hhc]
          · cases hr
            · simp [main, hv, hval, hlt, hhc]
            · cases shr <;> simp [main, hv, hval, hlt, hhc]
      · cases ir
        · simp [main, hv, hval, hlt]
        · cases tr
          · simp [main, hv, hval, hlt]
          · cases shr <;> simp [main, hv, hval, hlt]
    · simp [main, hv, hval]
  · intro hval
    constructor <;> simp [main, hv, hval]

/-- C1 witness: with both validateOnly and listToolsOnly set, only
validate-mode runs, exit code 0, no server operation. -/
theorem c1_mode_priority_witness :
    (main { optsBase with validate := true, listTools := true } worldGood
      srvOk envEmpty).modes = [Mode.validateMode] ∧
    (main { optsBase with validate := true, listTools := true } worldGood
      srvOk envEmpty).exitCode = some 0 ∧
    (main { optsBase with validate := true, listTools := true } worldGood
      srvOk envEmpty).serverOps = [] := by
  have h := c1_mode_priority { optsBase with validate := true, listTools := true }
    worldGood srvOk envEmpty (by decide)
  exact ⟨by simpa using h.1, (h.2 rfl).1, (h.2 rfl).2⟩

/-- C2 (amended): in health-check mode the exit code is 0 exactly when
initialize, getHealth and shutdown all succeed and the retrieved report has
status healthy; it is 1 in every other case, including a throwing
initialize, getHealth, or shutdown. (The original claim overlooks the
synchronous `server.shutdown()` before `process.exit`: if it throws while
the report is healthy, the outer catch exits 1; see the counterexample.) -/
theorem c2_health_exit_amended (opts : CliOptions) (w : World) (srv : Server)
    (env : Env) (hv : (validateOptions opts w.fs).valid = true)
    (h1 : opts.validate = false) (h2 : opts.listTools = false)
    (h3 : opts.healthCheck = true) :
    (main opts w srv env).exitCode =
      some (match srv.initRes, srv.healthRes, srv.shutdownRes with
        | Except.ok _, Except.ok h, Except.ok _ =>
          if h.status = ("healthy") then 0 else 1
        | _, _, _ => 1) := by
  obtain ⟨ir, tr, hr, sr, shr⟩ := srv
  cases ir <;> cases hr <;> cases shr <;> simp [main, hv, h1, h2, h3]

/-- C2 counterexample: the retrieved report is healthy, yet the exit code is
1 because the collaborator's `shutdown()` throws before `process.exit(0)` is
reached — refuting exit code 0 exactly when the report is healthy. -/
theorem c2_health_exit_counterexample :
    srvShutdownThrows.healthRes =
      Except.ok ({ status := ("healthy"), uptime := 0, services := [],
                   metrics := none } : HealthReport) ∧
    (main { optsBase with healthCheck := true } worldGood srvShutdownThrows
      envEmpty).exitCode = some 1 := by
  constructor
  · rfl
  · decide

/-- C2 witness: with every collaborator operation succeeding and a healthy
report, health-check mode exits 0. -/
theorem c2_health_exit_witness :
    (main { optsBase with healthCheck := true } worldGood srvOk
      envEmpty).exitCode = some 0 := by
  have h := c2_health_exit_amended { optsBase with healthCheck := true }
    worldGood srvOk envEmpty (by decide) rfl rfl rfl
  rw [h]
  decide

/-- C3: the signal handler is idempotent over signal sequences: from a live
process that has not torn down, delivering a second signal after a first
changes nothing (no re-entry into teardown, no second error), and teardown
has run at most once. -/
theorem c3_shutdown_idempotent (srv : Server) (s : ProcState)
    (h0 : s.exited = none) (h1 : s.teardownCount = 0) :
    deliverSignal srv (deliverSignal srv s) = deliverSignal srv s ∧
    (deliverSignal srv (deliverSignal srv s)).teardownCount ≤ 1 := by
  obtain ⟨ex, n⟩ := s
  simp only at h0 h1
  subst h0
  subst h1
  rcases hs : srv.shutdownRes <;> simp [deliverSignal, hs]

/-- C3 witness: two signals against the all-ok server perform exactly one
teardown. -/
theorem c3_shutdown_idempotent_witness :
    deliverSignal srvOk (deliverSignal srvOk { exited := none, teardownCount := 0 }) =
      deliverSignal srvOk { exited := none, teardownCount := 0 } ∧
    (deliverSignal srvOk (deliverSignal srvOk
      { exited := none, teardownCount := 0 })).teardownCount ≤ 1 :=
  c3_shutdown_idempotent srvOk { exited := none, teardownCount := 0 } rfl rfl

/-! ### Claims C7, C8, C9, C10 -/

/-- A tool in the numeric category `7`, for the C7 counterexample. -/
def toolNum7 : Tool :=
  { name := ("a"), description := ("first tool"), category := some ("7") }

/-- A tool in the numeric category `0`, for the C7 counterexample. -/
def toolNum0 : Tool :=
  { name := ("b"), description := ("second tool"), category := some ("0") }

/-- Tools whose categories are array-index strings, in first-seen order
`7` then `0`. -/
def numCatTools : List Tool := [toolNum7, toolNum0]

/-- A server returning the numeric-category tools. -/
def srvNumTools : Server :=
  { srvOk with toolsRes := Except.ok (ToolListResult.withTools numCatTools) }

/-- C7 (amended): in list-tools mode with a returned tools array whose
effective categories (a tool with no category or an empty-string category
falls into utility) are ASCII and not array-index strings, the CLI exits 0
and prints the header, the groups and the total line; the groups are keyed in
first-seen category order, the group of each category holds exactly the
returned tools of that category in return order, the flattened groups are a
permutation of the returned list (each tool printed exactly once), and the
final message renders as the line `Total: N tools available` with N the
length of the returned sequence. (Without the array-index restriction the
object enumerates integer-like keys first in ascending numeric order; see the
counterexample.) -/
theorem c7_list_tools_grouping (opts : CliOptions) (w : World) (srv : Server)
    (env : Env) (ts : List Tool)
    (hv : (validateOptions opts w.fs).valid = true)
    (h1 : opts.validate = false) (h2 : opts.listTools = true)
    (hi : srv.initRes = Except.ok ())
    (ht : srv.toolsRes = Except.ok (ToolListResult.withTools ts))
    (hs : srv.shutdownRes = Except.ok ())
    (hnum : ∀ t ∈ ts, isArrayIndexStr (catOf t) = false)
    (_hascii : ∀ t ∈ ts, isAsciiStr (catOf t) = true) :
    (main opts w srv env).exitCode = some 0 ∧
    (main opts w srv env).outMsgs =
      [("Available tools:"), sep60] ++
        ((groupByCategory ts).map renderGroup).flatten ++ [totalMsg ts.length] ∧
    groupKeys (groupByCategory ts) = specFirstSeenCategories ts ∧
    (∀ q, groupGet q (groupByCategory ts) = ts.filter (fun t => catOf t == q)) ∧
    (joinGroups (groupByCategory ts)).Perm ts ∧
    totalMsg ts.length = ("\nTotal: ") ++ toString ts.length ++ (" tools available") ∧
    consoleLines [totalMsg 2] = [(""), ("Total: 2 tools available")] := by
  have hkeys : ∀ p ∈ groupByCategory ts, isArrayIndexStr p.1 = false := by
    intro p hp
    have hmem : p.1 ∈ groupKeys (groupByCategory ts) :=
      List.mem_map_of_mem Prod.fst hp
    rw [groupByCategory_keys] at hmem
    obtain ⟨t, htm, hce⟩ := mem_specFirstSeenCategories ts p.1 hmem
    rw [← hce]
    exact hnum t htm
  have hEO := entriesOrder_eq_self (groupByCategory ts) hkeys
  refine ⟨?_, ?_, groupByCategory_keys ts, fun q => groupByCategory_get ts q,
    groupByCategory_perm ts, rfl, by decide⟩
  · simp [main, hv, h1, h2, hi, ht, hs]
  · simp [main, hv, h1, h2, hi, ht, hs, toolListMsgs, hEO]

/-- C7 counterexample: with categories `7` (seen first) and `0` (seen
second), the program renders the `0` group before the `7` group — array-index
keys enumerate in ascending numeric order, not first-seen order — refuting
the claim as universally stated. -/
theorem c7_numeric_order_counterexample :
    specFirstSeenCategories numCatTools = [("7"), ("0")] ∧
    (main { optsBase with listTools := true } worldGood srvNumTools
      envEmpty).outMsgs =
      [("Available tools:"), sep60,
       ("\n📁 0"), toolLine toolNum0,
       ("\n📁 7"), toolLine toolNum7,
       totalMsg 2] := by
  constructor
  · decide
  · decide

/-- C7 witness: the two-tool scenario (non-numeric ASCII categories);
categories in first-seen order (utility before build), and the last printed
line is exactly `Total: 2 tools available`. -/
theorem c7_list_tools_grouping_witness :
    (main { optsBase with listTools := true } worldGood srvTwoTools
      envEmpty).exitCode = some 0 ∧
    groupKeys (groupByCategory exTools) = [("utility"), ("build")] ∧
    (consoleLines (main { optsBase with listTools := true } worldGood
      srvTwoTools envEmpty).outMsgs).getLast? =
      some ("Total: 2 tools available") := by
  have h := c7_list_tools_grouping { optsBase with listTools := true }
    worldGood srvTwoTools envEmpty exTools (by decide) rfl rfl rfl rfl rfl
    (by decide) (by decide)
  exact ⟨h.1, by decide, by decide⟩

/-- C8: classification is pure substring matching on the message, the four
categories are tested independently and may jointly match; the message
`EADDRINUSE: port 3000` matches exactly PortConflict and triggers exactly
the PortConflict guidance block, while a message can match both the Docker
and Config categories and then contributes both blocks. -/
theorem c8_error_classification :
    classify ("EADDRINUSE: port 3000") =
      { docker := false, port := true, permission := false, config := false } ∧
    guidanceMsgs ("EADDRINUSE: port 3000") = portConflictBlock ∧
    classify ("Docker config missing") =
      { docker := true, port := false, permission := false, config := true } ∧
    guidanceMsgs ("Docker config missing") = dockerBlock ++ configBlock := by
  decide

/-- C9: when validation fails, main exits 1 having performed no environment
write, no configuration construction and no collaborator server operation;
the process environment is unchanged. -/
theorem c9_invalid_frame (opts : CliOptions) (w : World) (srv : Server)
    (env : Env) (hv : (validateOptions opts w.fs).valid = false) :
    (main opts w srv env).exitCode = some 1 ∧
    (main opts w srv env).envWrites = [] ∧
    (main opts w srv env).serverOps = [] ∧
    (main opts w srv env).configBuilt = false ∧
    applyEnvWrites env (main opts w srv env).envWrites = env := by
  refine ⟨?_, ?_, ?_, ?_, ?_⟩ <;> simp [main, hv, applyEnvWrites]

/-- C9 witness: an invalid log level makes main exit 1 with no environment
writes and no server operations, leaving the environment untouched. -/
theorem c9_invalid_frame_witness :
    (main { optsBase with logLevel := some ("verbose") } worldGood srvOk
      envEmpty).exitCode = some 1 ∧
    (main { optsBase with logLevel := some ("verbose") } worldGood srvOk
      envEmpty).envWrites = [] ∧
    (main { optsBase with logLevel := some ("verbose") } worldGood srvOk
      envEmpty).serverOps = [] ∧
    (main { optsBase with logLevel := some ("verbose") } worldGood srvOk
      envEmpty).configBuilt = false ∧
    applyEnvWrites envEmpty (main { optsBase with logLevel := some ("verbose") }
      worldGood srvOk envEmpty).envWrites = envEmpty :=
  c9_invalid_frame { optsBase with logLevel := some ("verbose") } worldGood
    srvOk envEmpty (by decide)

/-- C10: in list-tools mode, when the listTools result has no tools array the
CLI prints only the header block (the `Available tools:` line and its
separator), skips grouping and the total line without throwing, still invokes
the server's shutdown, and exits 0. -/
theorem c10_no_tools_field (opts : CliOptions) (w : World) (srv : Server)
    (env : Env) (hv : (validateOptions opts w.fs).valid = true)
    (h1 : opts.validate = false) (h2 : opts.listTools = true)
    (hi : srv.initRes = Except.ok ())
    (ht : srv.toolsRes = Except.ok ToolListResult.noToolsField)
    (hs : srv.shutdownRes = Except.ok ()) :
    (main opts w srv env).outMsgs = [("Available tools:"), sep60] ∧
    (main opts w srv env).serverOps =
      [ServerOp.initCall, ServerOp.listToolsCall, ServerOp.shutdownCall] ∧
    (main opts w srv env).exitCode = some 0 ∧
    (main opts w srv env).errMsgs = [] := by
  refine ⟨?_, ?_, ?_, ?_⟩ <;> simp [main, hv, h1, h2, hi, ht, hs, toolListMsgs]

/-- C10 witness: concrete run against a server returning no tools array. -/
theorem c10_no_tools_field_witness :
    (main { optsBase with listTools := true } worldGood srvNoToolsField
      envEmpty).outMsgs = [("Available tools:"), sep60] ∧
    (main { optsBase with listTools := true } worldGood srvNoToolsField
      envEmpty).serverOps =
      [ServerOp.initCall, ServerOp.listToolsCall, ServerOp.shutdownCall] ∧
    (main { optsBase with listTools := true } worldGood srvNoToolsField
      envEmpty).exitCode = some 0 ∧
    (main { optsBase with listTools := true } worldGood srvNoToolsField
      envEmpty).errMsgs = [] :=
  c10_no_tools_field { optsBase with listTools := true } worldGood
    srvNoToolsField envEmpty (by decide) rfl rfl rfl rfl rfl

end CliSpec
